import Mathlib

/-!
Verification of the restaurant-order core of the digi_ai repository.

The definitions below are a shallow embedding of the TypeScript source:
  - the POS modal (POSModal: cart composition, pricing, send-to-kitchen,
    finalize-with-inventory, rehydration of an open table order),
  - the rapid-order modal (RapidOrderModal: cart composition, pricing,
    submit/append),
  - the floor-plan status derivation (FloorPlanPage.tablesWithStatus),
  - the kitchen display completion handlers (KitchenDisplayPage).
Monetary amounts and quantities are JavaScript numbers in the source and are
modelled as rationals; `Date.now()` is modelled as an explicit parameter.
-/

/-- A selected modifier option, copied verbatim into carts and orders. -/
structure SelectedModifier where
  optionName : String
  optionPrice : ℚ
  deriving DecidableEq

/-- One recipe line of a menu item: ingredient and quantity per serving. -/
structure RecipeItem where
  ingredientId : String
  quantity : ℚ
  deriving DecidableEq

/-- A menu item; `modifierGroups` only matters through emptiness here
(the source checks `item.modifierGroups && item.modifierGroups.length > 0`). -/
structure MenuItem where
  id : String
  name : String
  price : ℚ
  recipe : List RecipeItem
  modifierGroups : List String
  deriving DecidableEq

/-- A transient cart line (client side, before submission). -/
structure CartItem where
  cartItemId : String
  id : String
  name : String
  basePrice : ℚ
  quantity : ℚ
  selectedModifiers : List SelectedModifier
  notes : Option String
  deriving DecidableEq

/-- Order lifecycle status.  `Pending` occurs in the source only in the
floor-plan subscription filter
(`where('status','in',['Pending','New','In Progress','Ready'])`). -/
inductive OrderStatus
  | Pending
  | New
  | InProgress
  | Ready
  | Completed
  deriving DecidableEq

inductive OrderType
  | dineIn
  | takeaway
  deriving DecidableEq

inductive PaymentMethod
  | cash
  | card
  | other
  deriving DecidableEq

/-- The persisted counterpart of a cart line.  `notes` is `none` where the
source leaves the field off the document. -/
structure OrderItem where
  name : String
  menuItemId : String
  price : ℚ
  quantity : ℚ
  selectedModifiers : List SelectedModifier
  isCompleted : Bool
  notes : Option String
  inventoryDeducted : Bool
  deriving DecidableEq

/-- A tax snapshot stored on an order. -/
structure AppliedTax where
  name : String
  rate : ℚ
  amount : ℚ
  deriving DecidableEq

/-- A tenant tax record. -/
structure Tax where
  id : String
  name : String
  rate : ℚ
  deriving DecidableEq

/-- The slice of the restaurant profile the core reads. -/
structure RestaurantProfile where
  appliedTaxIds : List String
  deriving DecidableEq

/-- A discount entry as read by the Z-report (`d.amount`). -/
structure AppliedDiscount where
  amount : ℚ
  deriving DecidableEq

/-- A persisted order document (the document id is kept outside, as the key
of the store association list). -/
structure Order where
  plateNumber : String
  orderType : OrderType
  items : List OrderItem
  subtotal : ℚ
  taxes : List AppliedTax
  taxAmount : ℚ
  tip : ℚ
  platformFee : ℚ
  total : ℚ
  status : OrderStatus
  paymentMethod : Option PaymentMethod
  notes : String
  createdAt : Nat
  appliedDiscounts : List AppliedDiscount
  deriving DecidableEq

/-- Sum of the selected modifier option prices
(`item.selectedModifiers.reduce((p, c) => p + c.optionPrice, 0)`). -/
def modifierSum (ms : List SelectedModifier) : ℚ :=
  ms.foldl (fun p c => p + c.optionPrice) 0

/-- `handleAddToCart` of POSModal and RapidOrderModal: merge into the first
line with the same `cartItemId` and the same `notes`, adding quantities;
otherwise push the new line at the end. -/
def addToCart : List CartItem → CartItem → List CartItem
  | [], item => [item]
  | c :: rest, item =>
      if c.cartItemId = item.cartItemId ∧ c.notes = item.notes then
        { c with quantity := c.quantity + item.quantity } :: rest
      else
        c :: addToCart rest item

/-- `handleSelectItem` of POSModal for an item without modifier groups:
the new line's key is `itemId-Date.now()`; `now` models `Date.now()`. -/
def posSelectItem (mi : MenuItem) (now : Nat) (cart : List CartItem) : List CartItem :=
  if mi.modifierGroups = [] then
    addToCart cart
      { cartItemId := mi.id ++ "-" ++ toString now, id := mi.id, name := mi.name,
        basePrice := mi.price, quantity := 1, selectedModifiers := [], notes := none }
  else cart

/-- `handleSelectItem` of RapidOrderModal for an item without modifier
groups: the new line's key is just the menu item id. -/
def rapidSelectItem (mi : MenuItem) (cart : List CartItem) : List CartItem :=
  if mi.modifierGroups = [] then
    addToCart cart
      { cartItemId := mi.id, id := mi.id, name := mi.name,
        basePrice := mi.price, quantity := 1, selectedModifiers := [], notes := none }
  else cart

/-- `optionName.replace(/\s/g, '')`. -/
def stripSpaces (s : String) : String :=
  (s.toList.filter (fun c => !c.isWhitespace)).asString

/-- Insertion into a lexicographically sorted list of strings. -/
def insertSorted (s : String) : List String → List String
  | [] => [s]
  | t :: rest => if s ≤ t then s :: t :: rest else t :: insertSorted s rest

/-- Model of JavaScript `Array.prototype.sort()` on strings. -/
def sortStrings (l : List String) : List String :=
  l.foldr insertSorted []

/-- The merge key built by POSModal's rehydration effect:
`menuItemId + '-' + modifiers.map(stripped optionName).sort().join('-')`. -/
def cartKey (menuItemId : String) (ms : List SelectedModifier) : String :=
  menuItemId ++ "-" ++
    String.intercalate "-" (sortStrings (ms.map (fun m => stripSpaces m.optionName)))

/-- `subtotal` (POSModal line 118 and RapidOrderModal line 90):
`cart.reduce((sum, item) => sum + (basePrice + Σ modifiers) * quantity, 0)`. -/
def cartSubtotal (cart : List CartItem) : ℚ :=
  cart.foldl (fun s it => s + (it.basePrice + modifierSum it.selectedModifiers) * it.quantity) 0

/-- `appliedTaxes` of POSModal: map the profile's applied-tax-id list through
`taxes.find`, drop misses, snapshot name/rate and `subtotal * rate / 100`. -/
def appliedTaxesPOS (profile : RestaurantProfile) (taxes : List Tax) (subtotal : ℚ) :
    List AppliedTax :=
  (profile.appliedTaxIds.filterMap (fun tid => taxes.find? (fun t => t.id = tid))).map
    (fun t => { name := t.name, rate := t.rate, amount := subtotal * (t.rate / 100) })

/-- `appliedTaxes` of RapidOrderModal: filter the tax list by membership of
its id in the profile's applied-tax-id list. -/
def appliedTaxesRapid (profile : RestaurantProfile) (taxes : List Tax) (subtotal : ℚ) :
    List AppliedTax :=
  (taxes.filter (fun t => profile.appliedTaxIds.contains t.id)).map
    (fun t => { name := t.name, rate := t.rate, amount := subtotal * (t.rate / 100) })

/-- `taxAmount`: sum of the applied tax amounts. -/
def taxTotal (ats : List AppliedTax) : ℚ :=
  ats.foldl (fun s t => s + t.amount) 0

/-- `total` of POSModal: `subtotal + taxAmount`. -/
def posTotal (cart : List CartItem) (profile : RestaurantProfile) (taxes : List Tax) : ℚ :=
  cartSubtotal cart + taxTotal (appliedTaxesPOS profile taxes (cartSubtotal cart))

/-- `changeDue` of POSModal (line 122): `tendered - total` when a number was
tendered, `0` otherwise. -/
def posChangeDue (tendered : Option ℚ) (total : ℚ) : ℚ :=
  match tendered with
  | some t => t - total
  | none => 0

/-- The rendered change value (line 453):
`changeDue > 0 ? changeDue.toFixed(3) : '0.000'`. -/
def displayedChange (cd : ℚ) : ℚ :=
  if 0 < cd then cd else 0

/-- The `disabled` condition of the POSModal finalize button (line 457):
`loading || (paymentMethod === 'cash' && (tendered === '' || tendered < total))`. -/
def finalizeDisabled (loading : Bool) (pm : PaymentMethod) (tendered : Option ℚ)
    (total : ℚ) : Bool :=
  loading ||
    (decide (pm = PaymentMethod.cash) &&
      match tendered with
      | none => true
      | some t => decide (t < total))

/-- `handleSendToKitchen`'s mapping of a cart line to an `OrderItem`
(POSModal lines 190-198): `isCompleted: false`, `notes: cartItem.notes || ''`;
the document carries no `inventoryDeducted` field, modelled as `false`. -/
def toOrderItemPOS (c : CartItem) : OrderItem :=
  { name := c.name, menuItemId := c.id,
    price := c.basePrice + modifierSum c.selectedModifiers,
    quantity := c.quantity, selectedModifiers := c.selectedModifiers,
    isCompleted := false, notes := some (c.notes.getD ""), inventoryDeducted := false }

/-- `handleSubmitOrder`'s mapping of a cart line to an `OrderItem`
(RapidOrderModal lines 181-196): `notes` is set only when present. -/
def toOrderItemRapid (c : CartItem) : OrderItem :=
  { name := c.name, menuItemId := c.id,
    price := c.basePrice + modifierSum c.selectedModifiers,
    quantity := c.quantity, selectedModifiers := c.selectedModifiers,
    isCompleted := false, notes := c.notes, inventoryDeducted := false }

/-- `handleFinalizeOrder`'s mapping of a cart line to an `OrderItem`
(POSModal lines 249-251): `isCompleted: true`, `inventoryDeducted: false`
(later mutated to `true` inside the deduction loop). -/
def toOrderItemFinal (c : CartItem) : OrderItem :=
  { name := c.name, menuItemId := c.id,
    price := c.basePrice + modifierSum c.selectedModifiers,
    quantity := c.quantity, selectedModifiers := c.selectedModifiers,
    isCompleted := true, notes := some (c.notes.getD ""), inventoryDeducted := false }

/-- Add `q` units under key `ing` in the deduction map
(`deductions.set(id, (deductions.get(id) || 0) + total)`), preserving the
JavaScript `Map` insertion order. -/
def addDeduction : List (String × ℚ) → String → ℚ → List (String × ℚ)
  | [], ing, q => [(ing, q)]
  | (i, v) :: rest, ing, q =>
      if i = ing then (i, v + q) :: rest else (i, v) :: addDeduction rest ing q

/-- One order item's contribution to the deduction map (POSModal lines
258-265): resolve the menu item, then for each recipe line accumulate
`recipe.quantity * orderItem.quantity`.  Note that the source never reads
`orderItem.inventoryDeducted` here. -/
def itemDeductions (menu : List MenuItem) (m : List (String × ℚ)) (it : OrderItem) :
    List (String × ℚ) :=
  match menu.find? (fun mi => mi.id = it.menuItemId) with
  | some mi =>
      mi.recipe.foldl (fun acc r => addDeduction acc r.ingredientId (r.quantity * it.quantity)) m
  | none => m

/-- The whole deduction map of one `handleFinalizeOrder` run (lines 256-265),
accumulated across the batch before any decrement write is issued. -/
def computeDeductions (menu : List MenuItem) (items : List OrderItem) : List (String × ℚ) :=
  items.foldl (itemDeductions menu) []

/-- Amount decremented from one ingredient's stock by a finalization batch. -/
def deductionFor (menu : List MenuItem) (items : List OrderItem) (ing : String) : ℚ :=
  ((computeDeductions menu items).lookup ing).getD 0

/-- The new-order write of `handleSendToKitchen` (POSModal lines 218-222). -/
def createOrderSend (cart : List CartItem) (profile : RestaurantProfile) (taxes : List Tax)
    (otype : OrderType) (identifier : String) (orderNotes : String) (now : Nat) : Order :=
  let sub := cartSubtotal cart
  let ats := appliedTaxesPOS profile taxes sub
  { plateNumber := identifier, orderType := otype, items := cart.map toOrderItemPOS,
    subtotal := sub, taxes := ats, taxAmount := taxTotal ats, tip := 0, platformFee := 0,
    total := sub + taxTotal ats, status := OrderStatus.New, paymentMethod := none,
    notes := orderNotes, createdAt := now, appliedDiscounts := [] }

/-- The new-order write of `handleSubmitOrder` (RapidOrderModal lines
224-241): platform fee 0, a payment method is recorded on the document. -/
def createOrderRapid (cart : List CartItem) (profile : RestaurantProfile) (taxes : List Tax)
    (otype : OrderType) (identifier : String) (orderNotes : String) (pm : PaymentMethod)
    (now : Nat) : Order :=
  let sub := cartSubtotal cart
  let ats := appliedTaxesRapid profile taxes sub
  { plateNumber := identifier, orderType := otype, items := cart.map toOrderItemRapid,
    subtotal := sub, taxes := ats, taxAmount := taxTotal ats, tip := 0, platformFee := 0,
    total := sub + taxTotal ats, status := OrderStatus.New, paymentMethod := some pm,
    notes := orderNotes, createdAt := now, appliedDiscounts := [] }

/-- The new-order write of `handleFinalizeOrder` (POSModal lines 287-291):
status `Completed`, every item completed and flagged `inventoryDeducted`. -/
def createOrderFinalize (cart : List CartItem) (profile : RestaurantProfile)
    (taxes : List Tax) (otype : OrderType) (identifier : String) (orderNotes : String)
    (pm : PaymentMethod) (now : Nat) : Order :=
  let sub := cartSubtotal cart
  let ats := appliedTaxesPOS profile taxes sub
  { plateNumber := identifier, orderType := otype,
    items := (cart.map toOrderItemFinal).map (fun it => { it with inventoryDeducted := true }),
    subtotal := sub, taxes := ats, taxAmount := taxTotal ats, tip := 0, platformFee := 0,
    total := sub + taxTotal ats, status := OrderStatus.Completed, paymentMethod := some pm,
    notes := orderNotes, createdAt := now, appliedDiscounts := [] }

/-- The append update of `handleSendToKitchen` (POSModal lines 203-216):
the batch is appended after the existing items, the subtotal is recomputed
over the combined items, taxes are recomputed on it, the new total keeps the
recorded tip, and the status is set to `In Progress`. -/
def appendSendToKitchen (existing : Order) (cart : List CartItem)
    (profile : RestaurantProfile) (taxes : List Tax) : Order :=
  let combined := existing.items ++ cart.map toOrderItemPOS
  let sub := combined.foldl (fun acc it => acc + it.price * it.quantity) 0
  let ats := appliedTaxesPOS profile taxes sub
  { existing with
    items := combined, subtotal := sub, taxes := ats, taxAmount := taxTotal ats,
    total := sub + taxTotal ats + existing.tip, status := OrderStatus.InProgress }

/-- The append update of `handleSubmitOrder` (RapidOrderModal lines 199-222):
same recomputation, but the status field is not written. -/
def appendSubmitOrder (existing : Order) (cart : List CartItem)
    (profile : RestaurantProfile) (taxes : List Tax) : Order :=
  let combined := existing.items ++ cart.map toOrderItemRapid
  let sub := combined.foldl (fun acc it => acc + it.price * it.quantity) 0
  let ats := appliedTaxesRapid profile taxes sub
  { existing with
    items := combined, subtotal := sub, taxes := ats, taxAmount := taxTotal ats,
    total := sub + taxTotal ats + existing.tip }

/-- The existing-order update of `handleFinalizeOrder` (POSModal lines
273-276): only `status` and `paymentMethod` are written. -/
def finalizeExistingOrder (o : Order) (pm : PaymentMethod) : Order :=
  { o with status := OrderStatus.Completed, paymentMethod := some pm }

/-- `mergeOrPush` of the rehydration effect (POSModal lines 79-93): look for
a line whose stored `cartItemId` equals the probe `key` and whose notes match;
on a hit add the quantity, otherwise push `line` at the end.  (The stored ids
carry a `-Date.now()` suffix, so the probe in the source never hits.) -/
def mergeOrPush : List CartItem → String → Option String → ℚ → CartItem → List CartItem
  | [], _, _, _, line => [line]
  | c :: rest, key, nts, q, line =>
      if c.cartItemId = key ∧ c.notes = nts then
        { c with quantity := c.quantity + q } :: rest
      else
        c :: mergeOrPush rest key nts q line

/-- One order item's rehydration into the combined cart (POSModal lines
75-94).  The base price is `allItems.find(mi => mi.id === menuItemId)?.price
|| item.price`: the live menu price when the menu item exists and its price
is non-zero, the snapshotted `item.price` otherwise. -/
def rehydStep (menu : List MenuItem) (now : Nat) (cc : List CartItem) (it : OrderItem) :
    List CartItem :=
  let key := cartKey it.menuItemId it.selectedModifiers
  let resolvedPrice :=
    match menu.find? (fun mi => mi.id = it.menuItemId) with
    | some mi => if mi.price = 0 then it.price else mi.price
    | none => it.price
  let line : CartItem :=
    { cartItemId := key ++ "-" ++ toString now, id := it.menuItemId, name := it.name,
      basePrice := resolvedPrice, quantity := it.quantity,
      selectedModifiers := it.selectedModifiers, notes := it.notes }
  mergeOrPush cc key it.notes it.quantity line

/-- The rehydration effect of POSModal (lines 67-99): fold every item of
every order associated with the table into one combined cart. -/
def rehydrateCart (menu : List MenuItem) (orders : List Order) (now : Nat) :
    List CartItem :=
  orders.foldl (fun cc o => o.items.foldl (rehydStep menu now) cc) []

/-- Derived floor-plan table status values. -/
inductive TableStatus
  | available
  | seated
  | ordered
  | attention
  | needsCleaning
  deriving DecidableEq

/-- A floor-plan table: its label and the persisted manual `status` field
(`needs_cleaning` / `seated` overrides; `none` models an absent field). -/
structure FloorTable where
  label : String
  manual : Option TableStatus
  deriving DecidableEq

/-- Model of JavaScript `String.prototype.toUpperCase()` (ASCII letters,
which is all the table labels and plate numbers use). -/
def upperStr (s : String) : String :=
  (s.toList.map Char.toUpper).asString

/-- The orders grouped onto a table by `tablesWithStatus` (FloorPlanPage
lines 87-99): non-empty `plateNumber`, not takeaway, and the upper-cased
plate equals the upper-cased table label.  (The source also sorts them by
`createdAt`, which does not affect the derived status.) -/
def tableOrdersFor (tbl : FloorTable) (orders : List Order) : List Order :=
  orders.filter (fun o =>
    decide (o.plateNumber ≠ "") && decide (o.orderType ≠ OrderType.takeaway) &&
      decide (upperStr o.plateNumber = upperStr tbl.label))

/-- The status derivation of `tablesWithStatus` (FloorPlanPage lines
102-112), exactly as the source's if/else chain. -/
def tableStatusFor (tbl : FloorTable) (orders : List Order) : TableStatus :=
  let tos := tableOrdersFor tbl orders
  if tbl.manual = some TableStatus.needsCleaning then TableStatus.needsCleaning
  else if tos ≠ [] then
    (if tos.any (fun o => decide (o.status = OrderStatus.Ready)) then TableStatus.attention
     else if tos.any (fun o =>
         decide (o.status = OrderStatus.InProgress) || decide (o.status = OrderStatus.New)) then
       TableStatus.ordered
     else TableStatus.available)
  else if tbl.manual = some TableStatus.seated then TableStatus.seated
  else TableStatus.available

/-- Modelled from the spec: the five-step priority exactly as claim C4 states
it — (1) needs-cleaning override, (2) any open order Ready, (3) any open
order New or In Progress, (4) seated override, (5) available.  Used only to
compare the claim's words against `tableStatusFor`. -/
def specTableStatus (tbl : FloorTable) (orders : List Order) : TableStatus :=
  let tos := tableOrdersFor tbl orders
  if tbl.manual = some TableStatus.needsCleaning then TableStatus.needsCleaning
  else if tos.any (fun o => decide (o.status = OrderStatus.Ready)) then TableStatus.attention
  else if tos.any (fun o =>
      decide (o.status = OrderStatus.InProgress) || decide (o.status = OrderStatus.New)) then
    TableStatus.ordered
  else if tbl.manual = some TableStatus.seated then TableStatus.seated
  else TableStatus.available

/-- The five-step priority amended to what the source computes: the seated
override is only consulted when the table has no open order at all. -/
def amendedTableStatus (tbl : FloorTable) (orders : List Order) : TableStatus :=
  let tos := tableOrdersFor tbl orders
  if tbl.manual = some TableStatus.needsCleaning then TableStatus.needsCleaning
  else if tos.any (fun o => decide (o.status = OrderStatus.Ready)) then TableStatus.attention
  else if tos.any (fun o =>
      decide (o.status = OrderStatus.InProgress) || decide (o.status = OrderStatus.New)) then
    TableStatus.ordered
  else if tos = [] ∧ tbl.manual = some TableStatus.seated then TableStatus.seated
  else TableStatus.available

/-- `updatedItems[itemIndex].isCompleted = true` (KitchenDisplayPage line
119): set the completion flag of the item at the given index. -/
def markCompleted : List OrderItem → Nat → List OrderItem
  | [], _ => []
  | it :: rest, 0 => { it with isCompleted := true } :: rest
  | it :: rest, Nat.succ n => it :: markCompleted rest n

/-- The status recomputation of KitchenDisplayPage (lines 121-122 and
149-150): `Ready` if all items are completed, else `In Progress` if the
order was `New`, else unchanged. -/
def recomputeStatus (items : List OrderItem) (st : OrderStatus) : OrderStatus :=
  if items.all (fun it => it.isCompleted) then OrderStatus.Ready
  else if st = OrderStatus.New then OrderStatus.InProgress
  else st

/-- `handleCompleteIndividual` (KitchenDisplayPage lines 112-125): mark one
occurrence done and write the recomputed items and status. -/
def completeIndividual (o : Order) (i : Nat) : Order :=
  let items2 := markCompleted o.items i
  { o with items := items2, status := recomputeStatus items2 o.status }

/-- The per-order effect of `handleBumpAll` (KitchenDisplayPage lines
127-155): mark every occurrence of the group in this order, then recompute
the status once from the resulting items. -/
def bumpOrder (o : Order) (idxs : List Nat) : Order :=
  let items2 := idxs.foldl markCompleted o.items
  { o with items := items2, status := recomputeStatus items2 o.status }

/-- `handleBumpAll` over the whole store: each order touched by at least one
occurrence `(orderId, itemIndex)` of the aggregated group is rewritten by
`bumpOrder` with its own occurrence indices; other orders are untouched. -/
def bumpAllStore (store : List (String × Order)) (occs : List (String × Nat)) :
    List (String × Order) :=
  store.map (fun p =>
    let idxs := (occs.filter (fun q => q.1 = p.1)).map (fun q => q.2)
    if idxs = [] then p else (p.1, bumpOrder p.2 idxs))

/-- Sum of the amounts of an order's applied discounts (as the Z-report
reads them). -/
def discountSum (o : Order) : ℚ :=
  (o.appliedDiscounts.map (fun d => d.amount)).sum

/-- The persisted-total invariant of claim C3. -/
def orderInvariant (o : Order) : Prop :=
  o.total = o.subtotal - discountSum o + o.taxAmount + o.tip + o.platformFee

/-- Orders producible by the order-writing code paths of POSModal and
RapidOrderModal: the three creation writes, the two append updates, and the
finalization update of an existing order. -/
inductive ReachableOrder : Order → Prop
  | sendNew (cart : List CartItem) (profile : RestaurantProfile) (taxes : List Tax)
      (otype : OrderType) (identifier orderNotes : String) (now : Nat) :
      ReachableOrder (createOrderSend cart profile taxes otype identifier orderNotes now)
  | rapidNew (cart : List CartItem) (profile : RestaurantProfile) (taxes : List Tax)
      (otype : OrderType) (identifier orderNotes : String) (pm : PaymentMethod) (now : Nat) :
      ReachableOrder (createOrderRapid cart profile taxes otype identifier orderNotes pm now)
  | finalNew (cart : List CartItem) (profile : RestaurantProfile) (taxes : List Tax)
      (otype : OrderType) (identifier orderNotes : String) (pm : PaymentMethod) (now : Nat) :
      ReachableOrder (createOrderFinalize cart profile taxes otype identifier orderNotes pm now)
  | sendAppend (o : Order) (cart : List CartItem) (profile : RestaurantProfile)
      (taxes : List Tax) : ReachableOrder o →
      ReachableOrder (appendSendToKitchen o cart profile taxes)
  | rapidAppend (o : Order) (cart : List CartItem) (profile : RestaurantProfile)
      (taxes : List Tax) : ReachableOrder o →
      ReachableOrder (appendSubmitOrder o cart profile taxes)
  | finalizeStep (o : Order) (pm : PaymentMethod) : ReachableOrder o →
      ReachableOrder (finalizeExistingOrder o pm)

/-- The append branch of `handleSendToKitchen` as a store write (POSModal
lines 203-216): only the document named by the FIRST id of the supplied
order-id list is updated; the batch contains no other order write. -/
def appendWriteStore (store : List (String × Order)) (orderIds : List String)
    (cart : List CartItem) (profile : RestaurantProfile) (taxes : List Tax) :
    List (String × Order) :=
  match orderIds with
  | [] => store
  | oid :: _ =>
      store.map (fun p =>
        if p.1 = oid then (p.1, appendSendToKitchen p.2 cart profile taxes) else p)

/-- Read the order document with the given id from the store. -/
def storeLookup (i : String) : List (String × Order) → Option Order
  | [] => none
  | (k, v) :: rest => if k = i then some v else storeLookup i rest

/-- A default order record used to build concrete test orders. -/
def baseOrder : Order :=
  { plateNumber := "", orderType := OrderType.dineIn, items := [], subtotal := 0,
    taxes := [], taxAmount := 0, tip := 0, platformFee := 0, total := 0,
    status := OrderStatus.New, paymentMethod := none, notes := "", createdAt := 0,
    appliedDiscounts := [] }

/-- Dish A: recipe uses 2 units of ingredient X per serving. -/
def fxDishA : MenuItem :=
  { id := "A", name := "Dish A", price := 1, recipe := [{ ingredientId := "X", quantity := 2 }],
    modifierGroups := [] }

/-- Dish B: recipe uses 3 units of ingredient X per serving. -/
def fxDishB : MenuItem :=
  { id := "B", name := "Dish B", price := 1, recipe := [{ ingredientId := "X", quantity := 3 }],
    modifierGroups := [] }

/-- The order items of a batch that was already finalized once: both carry
`inventoryDeducted = true` (dish A ordered twice, dish B once). -/
def fxDeductedItems : List OrderItem :=
  [{ name := "Dish A", menuItemId := "A", price := 1, quantity := 2, selectedModifiers := [],
     isCompleted := true, notes := none, inventoryDeducted := true },
   { name := "Dish B", menuItemId := "B", price := 1, quantity := 1, selectedModifiers := [],
     isCompleted := true, notes := none, inventoryDeducted := true }]

/-- The burger as it appears on the live menu now: price 3.000. -/
def fxBurger : MenuItem :=
  { id := "m", name := "Burger", price := 3, recipe := [], modifierGroups := [] }

/-- A live menu on which the burger now costs 3.000. -/
def fxMenuLive : List MenuItem := [fxBurger]

/-- The persisted order item that snapshotted the burger at 2.000, already
completed by the kitchen. -/
def fxSnapItem : OrderItem :=
  { name := "Burger", menuItemId := "m", price := 2, quantity := 1, selectedModifiers := [],
    isCompleted := true, notes := none, inventoryDeducted := false }

/-- An open dine-in order for table T1 holding only the snapshotted burger. -/
def fxSnapOrder : Order :=
  { baseOrder with
    plateNumber := "T1", items := [fxSnapItem], subtotal := 2, total := 2,
    status := OrderStatus.Ready }

/-- A plain menu item (no modifier groups) for the cart-merge claims. -/
def fxApple : MenuItem :=
  { id := "a", name := "Apple", price := 1, recipe := [], modifierGroups := [] }

/-- A table manually marked seated. -/
def fxTableSeated : FloorTable := { label := "T1", manual := some TableStatus.seated }

/-- An open dine-in order for T1 whose status is `Pending` (the floor-plan
subscription fetches such orders). -/
def fxPendingOrder : Order := { baseOrder with plateNumber := "T1", status := OrderStatus.Pending }

/-- A table with no manual override. -/
def fxTableT2 : FloorTable := { label := "T2", manual := none }

/-- A `Ready` dine-in order for T2. -/
def fxReadyOrderT2 : Order := { baseOrder with plateNumber := "T2", status := OrderStatus.Ready }

/-- An `In Progress` dine-in order for T2. -/
def fxInProgressOrderT2 : Order :=
  { baseOrder with plateNumber := "T2", status := OrderStatus.InProgress }

/-- A table manually marked needs-cleaning. -/
def fxTableClean : FloorTable := { label := "T3", manual := some TableStatus.needsCleaning }

/-- A `New` dine-in order for T3. -/
def fxNewOrderT3 : Order := { baseOrder with plateNumber := "T3", status := OrderStatus.New }

/-- The cart of the pricing test: base price 2.000, one +0.500 modifier,
quantity 3. -/
def fxCart : List CartItem :=
  [{ cartItemId := "k", id := "k", name := "Dish", basePrice := 2, quantity := 3,
     selectedModifiers := [{ optionName := "Extra", optionPrice := 1/2 }], notes := none }]

/-- A profile applying the single 5% tax below. -/
def fxProfile : RestaurantProfile := { appliedTaxIds := ["t1"] }

/-- A single 5% tax record. -/
def fxTaxes : List Tax := [{ id := "t1", name := "VAT", rate := 5 }]

/-- A deterministic-key cart line for the apple, quantity 2, no note. -/
def fxLineA : CartItem :=
  { cartItemId := "a", id := "a", name := "Apple", basePrice := 1, quantity := 2,
    selectedModifiers := [], notes := none }

/-- The same line added again with quantity 3. -/
def fxLineB : CartItem := { fxLineA with quantity := 3 }

/-- The same key with a different free-text note. -/
def fxLineC : CartItem := { fxLineA with quantity := 1, notes := some "no ice" }

/-- An order item not yet completed by the kitchen. -/
def fxOpenItem : OrderItem :=
  { name := "Apple", menuItemId := "a", price := 1, quantity := 1, selectedModifiers := [],
    isCompleted := false, notes := none, inventoryDeducted := false }

/-- A `New` order holding two outstanding kitchen items. -/
def fxKdsOrder : Order :=
  { baseOrder with plateNumber := "T9", items := [fxOpenItem, fxOpenItem] }

theorem foldl_add_eq_sum {α : Type} (f : α → ℚ) :
    ∀ (l : List α) (a : ℚ), l.foldl (fun p c => p + f c) a = a + (l.map f).sum := by
  intro l
  induction l with
  | nil => intro a; simp
  | cons x xs ih => intro a; simp [List.foldl, ih, add_assoc]

theorem modifierSum_eq_sum (ms : List SelectedModifier) :
    modifierSum ms = (ms.map (fun m => m.optionPrice)).sum := by
  unfold modifierSum
  rw [foldl_add_eq_sum (fun m => m.optionPrice) ms 0, zero_add]

theorem taxTotal_eq_sum (ats : List AppliedTax) :
    taxTotal ats = (ats.map (fun t => t.amount)).sum := by
  unfold taxTotal
  rw [foldl_add_eq_sum (fun t => t.amount) ats 0, zero_add]

/-- C8: for every cart, the subtotal is the sum over the items of
(base price + sum of the selected modifier option prices) times quantity;
every applied tax amount (in both modals) is subtotal times rate over 100;
the total is subtotal plus tax amount; and on the cart of one item with
base price 2.000, one +0.500 modifier and quantity 3 under a single 5% tax,
subtotal = 7.500 = 15/2, taxAmount = 0.375 = 3/8 and
total = 7.875 = 63/8. -/
theorem pricing_correct :
    (∀ cart : List CartItem,
      cartSubtotal cart =
        (cart.map (fun it =>
          (it.basePrice + (it.selectedModifiers.map (fun m => m.optionPrice)).sum)
            * it.quantity)).sum)
    ∧ (∀ (profile : RestaurantProfile) (taxes : List Tax) (s : ℚ),
        ∀ tx ∈ appliedTaxesPOS profile taxes s, tx.amount = s * (tx.rate / 100))
    ∧ (∀ (profile : RestaurantProfile) (taxes : List Tax) (s : ℚ),
        ∀ tx ∈ appliedTaxesRapid profile taxes s, tx.amount = s * (tx.rate / 100))
    ∧ (∀ (cart : List CartItem) (profile : RestaurantProfile) (taxes : List Tax),
        posTotal cart profile taxes =
          cartSubtotal cart + taxTotal (appliedTaxesPOS profile taxes (cartSubtotal cart)))
    ∧ cartSubtotal fxCart = 15/2
    ∧ taxTotal (appliedTaxesPOS fxProfile fxTaxes (15/2)) = 3/8
    ∧ posTotal fxCart fxProfile fxTaxes = 63/8 := by
  refine ⟨?_, ?_, ?_, ?_, ?_, ?_, ?_⟩
  · intro cart
    unfold cartSubtotal
    rw [foldl_add_eq_sum
      (fun it => (it.basePrice + modifierSum it.selectedModifiers) * it.quantity) cart 0,
      zero_add]
    simp only [modifierSum_eq_sum]
  · intro profile taxes s tx htx
    simp only [appliedTaxesPOS, List.mem_map] at htx
    obtain ⟨t, _, rfl⟩ := htx
    rfl
  · intro profile taxes s tx htx
    simp only [appliedTaxesRapid, List.mem_map] at htx
    obtain ⟨t, _, rfl⟩ := htx
    rfl
  · intro cart profile taxes
    rfl
  · norm_num [cartSubtotal, fxCart, modifierSum]
  · simp +decide [taxTotal, appliedTaxesPOS, fxProfile, fxTaxes]
    norm_num
  · simp +decide [posTotal, cartSubtotal, fxCart, modifierSum, taxTotal, appliedTaxesPOS,
      fxProfile, fxTaxes]
    norm_num

/-- Witness for C8: the single applied tax of the concrete 5% configuration
is a member of the applied-tax list and its amount satisfies the rate
formula, by `pricing_correct` itself. -/
theorem pricing_correct_witness :
    ({ name := "VAT", rate := 5, amount := (15/2) * (5 / 100) } : AppliedTax) ∈
        appliedTaxesPOS fxProfile fxTaxes (15/2)
    ∧ ({ name := "VAT", rate := 5, amount := (15/2) * (5 / 100) } : AppliedTax).amount
        = (15/2) * (({ name := "VAT", rate := 5, amount := (15/2) * (5 / 100) } : AppliedTax).rate / 100) := by
  have hmem :
      ({ name := "VAT", rate := 5, amount := (15/2) * (5 / 100) } : AppliedTax) ∈
        appliedTaxesPOS fxProfile fxTaxes (15/2) := by
    simp +decide [appliedTaxesPOS, fxProfile, fxTaxes]
  exact ⟨hmem, pricing_correct.2.1 fxProfile fxTaxes (15/2) _ hmem⟩

/-- C9: change due is tendered minus total, the displayed value is clamped
to 0 when the difference is not positive, the finalize button is disabled
for a cash payment whenever the tendered amount is below the total or
absent, and concretely with total 7.875 = 63/8: tendering 10 yields change
17/8 = 2.125, tendering 7 displays 0 and finalization is blocked. -/
theorem change_due_correct :
    (∀ total t : ℚ, posChangeDue (some t) total = t - total)
    ∧ (∀ cd : ℚ, cd ≤ 0 → displayedChange cd = 0)
    ∧ (∀ total t : ℚ, t < total →
        finalizeDisabled false PaymentMethod.cash (some t) total = true)
    ∧ (∀ total : ℚ, finalizeDisabled false PaymentMethod.cash none total = true)
    ∧ posChangeDue (some 10) (63/8) = 17/8
    ∧ displayedChange (posChangeDue (some 7) (63/8)) = 0
    ∧ finalizeDisabled false PaymentMethod.cash (some 7) (63/8) = true := by
  refine ⟨?_, ?_, ?_, ?_, ?_, ?_, ?_⟩
  · intro total t; rfl
  · intro cd h
    unfold displayedChange
    rw [if_neg (not_lt.mpr h)]
  · intro total t h
    simp [finalizeDisabled, h]
  · intro total
    rfl
  · norm_num [posChangeDue]
  · norm_num [posChangeDue, displayedChange]
  · norm_num [finalizeDisabled]

/-- Witness for C9: the clamping and blocking parts of `change_due_correct`
applied at concrete inputs. -/
theorem change_due_correct_witness :
    displayedChange (-1) = 0
    ∧ finalizeDisabled false PaymentMethod.cash (some 1) 2 = true := by
  exact ⟨change_due_correct.2.1 (-1) (by norm_num),
    change_due_correct.2.2.1 2 1 (by norm_num)⟩

theorem addToCart_no_match :
    ∀ (pre : List CartItem) (item : CartItem),
      (∀ c ∈ pre, ¬(c.cartItemId = item.cartItemId ∧ c.notes = item.notes)) →
      addToCart pre item = pre ++ [item] := by
  intro pre
  induction pre with
  | nil => intro item _; rfl
  | cons c rest ih =>
    intro item h
    have hc := h c (List.mem_cons_self c rest)
    simp only [addToCart]
    rw [if_neg hc, ih item (fun x hx => h x (List.mem_cons_of_mem c hx))]
    rfl

theorem addToCart_skip :
    ∀ (pre suffix : List CartItem) (item : CartItem),
      (∀ c ∈ pre, ¬(c.cartItemId = item.cartItemId ∧ c.notes = item.notes)) →
      addToCart (pre ++ suffix) item = pre ++ addToCart suffix item := by
  intro pre
  induction pre with
  | nil => intro suffix item _; rfl
  | cons c rest ih =>
    intro suffix item h
    have hc := h c (List.mem_cons_self c rest)
    simp only [List.cons_append, addToCart]
    rw [if_neg hc]
    exact congrArg (fun l => c :: l)
      (ih suffix item (fun x hx => h x (List.mem_cons_of_mem c hx)))

/-- C5 (amended): merging happens on equality of the derived `cartItemId`
key together with the free-text note.  When the second add carries the same
key and the same note as an already-present line, the two quantities add
into a single line; when the note differs, a second separate line is
created.  (POSModal's `handleSelectItem` suffixes `Date.now()` onto the key
of a newly selected plain item, so there two selections never share a key —
see the counterexample.) -/
theorem cart_merge_amended :
    (∀ (pre : List CartItem) (c1 c2 : CartItem),
      c1.cartItemId = c2.cartItemId → c1.notes = c2.notes →
      (∀ c ∈ pre, ¬(c.cartItemId = c1.cartItemId ∧ c.notes = c1.notes)) →
      addToCart (addToCart pre c1) c2
        = pre ++ [{ c1 with quantity := c1.quantity + c2.quantity }])
    ∧ (∀ (pre : List CartItem) (c1 c2 : CartItem),
      c1.cartItemId = c2.cartItemId → c1.notes ≠ c2.notes →
      (∀ c ∈ pre, ¬(c.cartItemId = c1.cartItemId ∧ (c.notes = c1.notes ∨ c.notes = c2.notes))) →
      addToCart (addToCart pre c1) c2 = pre ++ [c1, c2]) := by
  constructor
  · intro pre c1 c2 h1 h2 hpre
    rw [addToCart_no_match pre c1 hpre]
    rw [addToCart_skip pre [c1] c2
      (fun c hc => by
        rw [← h1, ← h2]
        exact hpre c hc)]
    simp only [addToCart]
    rw [if_pos ⟨h1, h2⟩]
  · intro pre c1 c2 h1 h2 hpre
    rw [addToCart_no_match pre c1
      (fun c hc => fun hand => hpre c hc ⟨hand.1, Or.inl hand.2⟩)]
    rw [addToCart_skip pre [c1] c2
      (fun c hc => fun hand => hpre c hc ⟨h1 ▸ hand.1, Or.inr hand.2⟩)]
    simp only [addToCart]
    rw [if_neg (fun hand => h2 hand.2)]

/-- Witness for C5: on the empty cart, adding the apple line with quantity 2
and then with quantity 3 yields one line of quantity 5, while adding the
same key with a different note yields two lines, by `cart_merge_amended`. -/
theorem cart_merge_amended_witness :
    addToCart (addToCart [] fxLineA) fxLineB
      = [{ fxLineA with quantity := fxLineA.quantity + fxLineB.quantity }]
    ∧ addToCart (addToCart [] fxLineA) fxLineC = [fxLineA, fxLineC] := by
  exact ⟨cart_merge_amended.1 [] fxLineA fxLineB rfl rfl (by simp),
    cart_merge_amended.2 [] fxLineA fxLineC rfl (by simp [fxLineA, fxLineC]) (by simp)⟩

/-- Counterexample for C5: in POSModal, selecting the same plain item (same
menuItemId, no modifiers, no note) twice — at `Date.now()` values 1 and 2 —
leaves TWO cart lines of quantity 1 each, not one line of quantity 2,
because the generated `cartItemId`s differ by their timestamp suffix. -/
theorem cart_merge_counterexample :
    ((posSelectItem fxApple 2 (posSelectItem fxApple 1 [])).map (fun c => (c.id, c.quantity)))
      = [("a", 1), ("a", 1)]
    ∧ (posSelectItem fxApple 2 (posSelectItem fxApple 1 [])).length = 2 := by
  constructor
  · decide
  · decide

/-- C4 (amended): the derived table status follows the five-step priority
with one change forced by the source's else-chain: the seated manual
override only applies when the table has NO open order at all (a table whose
open orders are all outside {Ready, New, In Progress} — e.g. `Pending` —
derives `available` even under a seated override).  In particular a table
with one Ready and one In Progress order derives `attention`, and a
needs-cleaning override wins over a `New` order. -/
theorem floor_status_amended :
    (∀ (tbl : FloorTable) (orders : List Order),
      tableStatusFor tbl orders = amendedTableStatus tbl orders)
    ∧ tableStatusFor fxTableT2 [fxReadyOrderT2, fxInProgressOrderT2] = TableStatus.attention
    ∧ tableStatusFor fxTableClean [fxNewOrderT3] = TableStatus.needsCleaning := by
  refine ⟨?_, by decide, by decide⟩
  intro tbl orders
  unfold tableStatusFor amendedTableStatus
  by_cases h1 : tbl.manual = some TableStatus.needsCleaning
  · simp [h1]
  · by_cases h2 : tableOrdersFor tbl orders = []
    · simp [h1, h2]
    · simp [h1, h2]

/-- Counterexample for C4: a table manually marked seated whose only open
order is a `Pending` dine-in order derives `available` in the source, while
the claim's five-step priority yields `seated`. -/
theorem floor_status_counterexample :
    tableStatusFor fxTableSeated [fxPendingOrder] = TableStatus.available
    ∧ specTableStatus fxTableSeated [fxPendingOrder] = TableStatus.seated
    ∧ tableStatusFor fxTableSeated [fxPendingOrder]
        ≠ specTableStatus fxTableSeated [fxPendingOrder] := by
  refine ⟨by decide, by decide, by decide⟩

theorem reachable_aux :
    ∀ (o : Order), ReachableOrder o →
      orderInvariant o ∧ o.platformFee = 0 ∧ o.appliedDiscounts = [] := by
  intro o h
  induction h with
  | sendNew cart profile taxes otype identifier orderNotes now =>
    refine ⟨?_, rfl, rfl⟩
    simp [orderInvariant, createOrderSend, discountSum]
  | rapidNew cart profile taxes otype identifier orderNotes pm now =>
    refine ⟨?_, rfl, rfl⟩
    simp [orderInvariant, createOrderRapid, discountSum]
  | finalNew cart profile taxes otype identifier orderNotes pm now =>
    refine ⟨?_, rfl, rfl⟩
    simp [orderInvariant, createOrderFinalize, discountSum]
  | sendAppend o cart profile taxes _ ih =>
    obtain ⟨_, hfee, hdisc⟩ := ih
    refine ⟨?_, hfee, hdisc⟩
    simp [orderInvariant, appendSendToKitchen, discountSum, hdisc, hfee]
  | rapidAppend o cart profile taxes _ ih =>
    obtain ⟨_, hfee, hdisc⟩ := ih
    refine ⟨?_, hfee, hdisc⟩
    simp [orderInvariant, appendSubmitOrder, discountSum, hdisc, hfee]
  | finalizeStep o pm _ ih =>
    exact ih

/-- C3: every order at every point it is written to the store by the order
paths modelled here — creation by send-to-kitchen, rapid submit or direct
finalization, the two append updates, and finalization of an existing
order — satisfies total = subtotal − discounts + taxAmount + tip +
platformFee. -/
theorem order_total_invariant (o : Order) (h : ReachableOrder o) : orderInvariant o :=
  (reachable_aux o h).1

/-- Witness for C3: a concrete reachable order (an empty takeaway cart sent
to the kitchen) satisfies the invariant, by `order_total_invariant`. -/
theorem order_total_invariant_witness :
    orderInvariant (createOrderSend [] fxProfile fxTaxes OrderType.takeaway "X" "" 0) :=
  order_total_invariant _
    (ReachableOrder.sendNew [] fxProfile fxTaxes OrderType.takeaway "X" "" 0)

/-- C2 (amended): the append updates themselves are purely additive — the
written item list is the existing items followed verbatim by the supplied
batch, and every batch item starts with `isCompleted = false`.  However, in
POSModal the batch sent on "Add to order" is the ENTIRE current cart, which
after rehydration already contains copies of the order's existing (even
completed) items, so those get duplicated into the order as fresh incomplete
items — see the counterexample.  In RapidOrderModal the cart starts empty,
so there the batch holds only the newly added items and the original claim
holds. -/
theorem append_additive :
    ∀ (o : Order) (cart : List CartItem) (profile : RestaurantProfile) (taxes : List Tax),
      (appendSendToKitchen o cart profile taxes).items = o.items ++ cart.map toOrderItemPOS
      ∧ (∀ it ∈ cart.map toOrderItemPOS, it.isCompleted = false)
      ∧ (appendSubmitOrder o cart profile taxes).items = o.items ++ cart.map toOrderItemRapid
      ∧ (∀ it ∈ cart.map toOrderItemRapid, it.isCompleted = false) := by
  intro o cart profile taxes
  refine ⟨rfl, ?_, rfl, ?_⟩
  · intro it hit
    simp only [List.mem_map] at hit
    obtain ⟨c, _, rfl⟩ := hit
    rfl
  · intro it hit
    simp only [List.mem_map] at hit
    obtain ⟨c, _, rfl⟩ := hit
    rfl

/-- Witness for C2: appending the single new apple line to the concrete
order yields exactly the existing items followed by that one new incomplete
item, by `append_additive`. -/
theorem append_additive_witness :
    (appendSendToKitchen fxSnapOrder [fxLineA] fxProfile fxTaxes).items
      = fxSnapOrder.items ++ [fxLineA].map toOrderItemPOS
    ∧ (toOrderItemPOS fxLineA).isCompleted = false := by
  obtain ⟨h1, h2, _, _⟩ := append_additive fxSnapOrder [fxLineA] fxProfile fxTaxes
  exact ⟨h1, h2 (toOrderItemPOS fxLineA) (by simp)⟩

/-- Counterexample for C2: table T1 has one order whose single burger item
is already completed.  Opening the POS on that table rehydrates the cart
from the order; pressing "Add to order" without adding anything appends the
whole rehydrated cart, so the written order holds the burger TWICE — the
old completed copy and a fresh incomplete copy — where the claim requires
the item list to remain exactly the existing items. -/
theorem append_duplicates_counterexample :
    ((appendSendToKitchen fxSnapOrder (rehydrateCart fxMenuLive [fxSnapOrder] 0)
        fxProfile fxTaxes).items.map (fun it => (it.menuItemId, it.isCompleted)))
      = [("m", true), ("m", false)]
    ∧ fxSnapOrder.items.length = 1
    ∧ (appendSendToKitchen fxSnapOrder (rehydrateCart fxMenuLive [fxSnapOrder] 0)
        fxProfile fxTaxes).items.length = 2 := by
  refine ⟨by decide, by decide, by decide⟩

/-- C6 (amended): when an in-progress dine-in order is rehydrated into a
cart, each line's NAME comes from the persisted snapshot, but its base price
is re-resolved against the current live menu — the snapshotted price is used
only when the menu item is missing (or its live price is 0).  So a later
menu price change does alter the rehydrated cart's prices. -/
theorem rehydration_price_amended :
    ∀ (menu : List MenuItem) (o : Order) (it : OrderItem) (mi : MenuItem) (now : Nat),
      o.items = [it] →
      menu.find? (fun m => m.id = it.menuItemId) = some mi →
      mi.price ≠ 0 →
      (rehydrateCart menu [o] now).map (fun c => (c.name, c.basePrice))
        = [(it.name, mi.price)] := by
  intro menu o it mi now hitems hfind hp
  simp [rehydrateCart, hitems, rehydStep, hfind, hp, mergeOrPush]

/-- Witness for C6: the burger snapshotted at 2.000 rehydrates at the live
menu price 3.000, by `rehydration_price_amended`. -/
theorem rehydration_price_amended_witness :
    (rehydrateCart fxMenuLive [fxSnapOrder] 0).map (fun c => (c.name, c.basePrice))
      = [(fxSnapItem.name, fxBurger.price)] :=
  rehydration_price_amended fxMenuLive fxSnapOrder fxSnapItem fxBurger 0 rfl rfl
    (by norm_num [fxBurger])

/-- Counterexample for C6: the persisted order item snapshotted the burger
at price 2.000; the live menu now lists it at 3.000; the rehydrated cart
line carries base price 3.000, not the snapshotted 2.000. -/
theorem rehydration_price_counterexample :
    ((rehydrateCart fxMenuLive [fxSnapOrder] 0).map (fun c => c.basePrice)) = [3]
    ∧ (fxSnapOrder.items.map (fun it => it.price)) = [2]
    ∧ (3 : ℚ) ≠ 2 := by
  refine ⟨by decide, by decide, by norm_num⟩

theorem markCompleted_all :
    ∀ (items : List OrderItem) (i : Nat),
      items.all (fun it => it.isCompleted) = true →
      (markCompleted items i).all (fun it => it.isCompleted) = true := by
  intro items
  induction items with
  | nil => intro i h; exact h
  | cons it rest ih =>
    intro i h
    simp only [List.all_cons, Bool.and_eq_true] at h
    cases i with
    | zero =>
      simp only [markCompleted, List.all_cons, Bool.and_eq_true]
      exact ⟨trivial, h.2⟩
    | succ n =>
      simp only [markCompleted, List.all_cons, Bool.and_eq_true]
      exact ⟨h.1, ih n h.2⟩

theorem foldl_markCompleted_all :
    ∀ (idxs : List Nat) (items : List OrderItem),
      items.all (fun it => it.isCompleted) = true →
      (idxs.foldl markCompleted items).all (fun it => it.isCompleted) = true := by
  intro idxs
  induction idxs with
  | nil => intro items h; exact h
  | cons i rest ih => intro items h; exact ih _ (markCompleted_all items i h)

theorem recomputeStatus_collapse (items1 items2 : List OrderItem) (st : OrderStatus)
    (h : items1.all (fun it => it.isCompleted) = true →
         items2.all (fun it => it.isCompleted) = true) :
    recomputeStatus items2 (recomputeStatus items1 st) = recomputeStatus items2 st := by
  unfold recomputeStatus
  by_cases h2 : items2.all (fun it => it.isCompleted) = true
  · simp [h2]
  · have h1 : ¬ items1.all (fun it => it.isCompleted) = true := fun hh => h2 (h hh)
    by_cases hst : st = OrderStatus.New
    · simp [h1, h2, hst]
    · simp [h1, h2, hst]

theorem bumpOrder_eq_fold :
    ∀ (idxs : List Nat) (o : Order), idxs ≠ [] →
      bumpOrder o idxs = idxs.foldl completeIndividual o := by
  intro idxs
  induction idxs with
  | nil => intro o h; exact absurd rfl h
  | cons i rest ih =>
    intro o _
    by_cases hne : rest = []
    · subst hne; rfl
    · rw [List.foldl_cons, ← ih (completeIndividual o i) hne]
      unfold bumpOrder completeIndividual
      simp only [List.foldl_cons]
      rw [recomputeStatus_collapse (markCompleted o.items i)
        (List.foldl markCompleted (markCompleted o.items i) rest) o.status
        (foldl_markCompleted_all rest (markCompleted o.items i))]

theorem markCompleted_get :
    ∀ (items : List OrderItem) (i : Nat) (hi : i < items.length),
      (markCompleted items i).get? i = some { items.get ⟨i, hi⟩ with isCompleted := true } := by
  intro items
  induction items with
  | nil => intro i hi; exact absurd hi (by simp)
  | cons it rest ih =>
    intro i hi
    cases i with
    | zero => rfl
    | succ n =>
      have hn : n < rest.length := Nat.lt_of_succ_lt_succ hi
      simpa [markCompleted] using ih n hn

/-- C7: marking one occurrence done sets that order item's `isCompleted` to
true and recomputes the status as Ready if all items are now completed, else
In Progress if it was New, else unchanged; and bumping an aggregated group
applies exactly this single-item rule, iterated, to every occurrence the
group has in every order it spans (orders with no occurrence are untouched). -/
theorem kitchen_completion_correct :
    (∀ (o : Order) (i : Nat) (hi : i < o.items.length),
      (completeIndividual o i).items.get? i
          = some { o.items.get ⟨i, hi⟩ with isCompleted := true }
      ∧ (completeIndividual o i).status
          = (if (completeIndividual o i).items.all (fun it => it.isCompleted) then
               OrderStatus.Ready
             else if o.status = OrderStatus.New then OrderStatus.InProgress
             else o.status))
    ∧ (∀ (store : List (String × Order)) (occs : List (String × Nat)),
      bumpAllStore store occs = store.map (fun p =>
        let idxs := (occs.filter (fun q => q.1 = p.1)).map (fun q => q.2)
        if idxs = [] then p else (p.1, idxs.foldl completeIndividual p.2))) := by
  constructor
  · intro o i hi
    exact ⟨markCompleted_get o.items i hi, rfl⟩
  · intro store occs
    unfold bumpAllStore
    induction store with
    | nil => rfl
    | cons p rest ih =>
      simp only [List.map_cons, ih]
      by_cases hidx : ((occs.filter (fun q => q.1 = p.1)).map (fun q => q.2)) = []
      · simp [hidx]
      · simp only [hidx, if_neg hidx]
        rw [bumpOrder_eq_fold _ p.2 hidx]

/-- Witness for C7: in a concrete `New` order with two outstanding items,
completing occurrence 0 flags exactly that item, and bumping a group with
both occurrences equals iterating the single-item rule, by
`kitchen_completion_correct`. -/
theorem kitchen_completion_correct_witness :
    (0 < fxKdsOrder.items.length)
    ∧ (completeIndividual fxKdsOrder 0).items.get? 0
        = some { fxKdsOrder.items.get ⟨0, by decide⟩ with isCompleted := true }
    ∧ bumpAllStore [("o1", fxKdsOrder)] [("o1", 0), ("o1", 1)]
        = [("o1", [0, 1].foldl completeIndividual fxKdsOrder)] := by
  have hi : 0 < fxKdsOrder.items.length := by decide
  refine ⟨hi, (kitchen_completion_correct.1 fxKdsOrder 0 hi).1, ?_⟩
  rw [kitchen_completion_correct.2 [("o1", fxKdsOrder)] [("o1", 0), ("o1", 1)]]
  decide

/-- C10: when appending to a table with several associated open orders, the
batch updates only the order document named by the FIRST id of the supplied
order-id list — its items, subtotal, taxes, taxAmount, total and status —
and every other order in the store is left completely unchanged; moreover
the update leaves every field outside that list (plate number, order type,
tip, platform fee, payment method, notes, creation time, discounts) of the
updated document untouched. -/
theorem append_frame (store : List (String × Order)) (oid : String) (rest : List String)
    (cart : List CartItem) (profile : RestaurantProfile) (taxes : List Tax) (i : String)
    (hne : i ≠ oid) :
    (storeLookup i (appendWriteStore store (oid :: rest) cart profile taxes)
        = storeLookup i store)
    ∧ (storeLookup oid (appendWriteStore store (oid :: rest) cart profile taxes)
        = (storeLookup oid store).map (fun o => appendSendToKitchen o cart profile taxes))
    ∧ (∀ o : Order,
        (appendSendToKitchen o cart profile taxes).plateNumber = o.plateNumber
        ∧ (appendSendToKitchen o cart profile taxes).orderType = o.orderType
        ∧ (appendSendToKitchen o cart profile taxes).tip = o.tip
        ∧ (appendSendToKitchen o cart profile taxes).platformFee = o.platformFee
        ∧ (appendSendToKitchen o cart profile taxes).paymentMethod = o.paymentMethod
        ∧ (appendSendToKitchen o cart profile taxes).notes = o.notes
        ∧ (appendSendToKitchen o cart profile taxes).createdAt = o.createdAt
        ∧ (appendSendToKitchen o cart profile taxes).appliedDiscounts = o.appliedDiscounts) := by
  refine ⟨?_, ?_, ?_⟩
  · induction store with
    | nil => rfl
    | cons p st ih =>
      obtain ⟨k, o⟩ := p
      simp only [appendWriteStore, List.map_cons]
      by_cases hk : k = oid
      · subst hk
        have hoi : ¬ (k = i) := fun hh => hne (hh ▸ rfl)
        rw [if_pos rfl]
        simp only [storeLookup]
        rw [if_neg hoi, if_neg hoi]
        exact ih
      · rw [if_neg hk]
        simp only [storeLookup]
        by_cases hki : k = i
        · rw [if_pos hki, if_pos hki]
        · rw [if_neg hki, if_neg hki]
          exact ih
  · induction store with
    | nil => rfl
    | cons p st ih =>
      obtain ⟨k, o⟩ := p
      simp only [appendWriteStore, List.map_cons]
      by_cases hk : k = oid
      · subst hk
        rw [if_pos rfl]
        simp [storeLookup]
      · rw [if_neg hk]
        simp only [storeLookup]
        rw [if_neg hk, if_neg hk]
        exact ih
  · intro o
    exact ⟨rfl, rfl, rfl, rfl, rfl, rfl, rfl, rfl⟩

/-- Witness for C10: in a two-order store, appending to order o1 leaves the
sibling order o2 exactly as it was, by `append_frame`. -/
theorem append_frame_witness :
    storeLookup "o2" (appendWriteStore [("o1", fxSnapOrder), ("o2", fxKdsOrder)] ["o1"]
        [fxLineA] fxProfile fxTaxes)
      = storeLookup "o2" [("o1", fxSnapOrder), ("o2", fxKdsOrder)] :=
  (append_frame [("o1", fxSnapOrder), ("o2", fxKdsOrder)] "o1" [] [fxLineA] fxProfile
    fxTaxes "o2" (by decide)).1

/-- C1 (code bug): the finalization deduction never consults the
`inventoryDeducted` flag.  Two dishes sharing ingredient X at 2 and 3 units
per serving, ordered 2 and 1 times, correctly deduct 7 units as one batched
decrement — but re-running the finalization on the SAME items, now all
flagged `inventoryDeducted = true` from the first run, deducts 7 units
again instead of the 0 the claim requires: `computeDeductions` reads only
the recipes and quantities, and `handleFinalizeOrder` neither persists the
flag for an existing order (it writes only `status` and `paymentMethod`)
nor checks it anywhere. -/
theorem inventory_flag_ignored :
    deductionFor [fxDishA, fxDishB] fxDeductedItems "X" = 7 ∧ (7 : ℚ) ≠ 0 := by
  constructor
  · norm_num [deductionFor, computeDeductions, itemDeductions, addDeduction, fxDishA,
      fxDishB, fxDeductedItems, List.lookup]
  · norm_num
